import Mathlib

/-!
Shallow embedding of `mrec/item_similarity/recommender.py`
(`ItemSimilarityRecommender`).

Modelling conventions:
* Sparse scipy matrices are embedded as a shape plus a total entry function
  over ℚ (floating point scores are modelled by rationals; every concrete
  score appearing in the spec is exactly representable).
* `self.similarity_matrix`, which in Python may simply not exist as an
  attribute before `fit`/`load_similarity_matrix`, is an `Option Mat`;
  the `AttributeError` raised and re-raised by the recommend methods is an
  `Except.error` carrying the Python message.
* `np.argsort` leaves tie order unspecified (quicksort); ties are modelled
  index-ascending, which also matches the tie order of the stable sort used
  by the batch path after reversal.
* Python's stable `sorted` is modelled with `List.insertionSort`, which is
  stable and inserts an element before the first element it need not follow.
-/

namespace Mrec

/-- A (sparse) matrix viewed densely: shape plus a total entry function. -/
structure Mat where
  rows : Nat
  cols : Nat
  entry : Nat → Nat → ℚ

/-- Recommender state: `similarity_matrix` is absent before
`fit`/`load_similarity_matrix` (attribute not set in Python). -/
structure Rec where
  similarity_matrix : Option Mat

/-- `set(dataset[u].indices)`: the non-zero column indices of row `u`
(canonical CSR stores exactly the non-zero entries). -/
def knownItems (d : Mat) (u : Nat) : List Nat :=
  (List.range d.cols).filter (fun i => decide (d.entry u i ≠ 0))

/-- `r = (self.similarity_matrix * dataset[u].T).toarray().flatten()`:
`r i = Σ_k sim[i,k] * dataset[u,k]`. -/
def singleScores (sim d : Mat) (u : Nat) : Nat → ℚ :=
  fun i => ((List.range sim.cols).map (fun k => sim.entry i k * d.entry u k)).sum

/-- Row `u` of `dataset * self.similarity_matrix.T`:
`r[u,i] = Σ_k dataset[u,k] * sim[i,k]`. -/
def projScores (sim d : Mat) (u : Nat) : Nat → ℚ :=
  fun i => ((List.range d.cols).map (fun k => d.entry u k * sim.entry i k)).sum

/-- Total order used to model `np.argsort(r)` (ascending by value; tie order
is unspecified by numpy and modelled index-ascending). -/
def argRel (r : Nat → ℚ) (i j : Nat) : Prop :=
  r i < r j ∨ (r i = r j ∧ i ≤ j)

instance (r : Nat → ℚ) : DecidableRel (argRel r) := fun i j => by
  unfold argRel; infer_instance

/-- `r.argsort()`. -/
def argsort (r : Nat → ℚ) (n : Nat) : List Nat :=
  List.insertionSort (argRel r) (List.range n)

/-- The selection loop of `recommend_items` (lines 142-151): walk candidate
indices in descending-score order, skip known items, append the rest, and
break as soon as `len(recs) >= max_items` holds *after* an append. -/
def recLoop (known : List Nat) (r : Nat → ℚ) (max_items : Nat) :
    List Nat → List (Nat × ℚ) → List (Nat × ℚ)
  | [], recs => recs
  | i :: rest, recs =>
    if i ∈ known then recLoop known r max_items rest recs
    else
      let recs' := recs ++ [(i, r i)]
      if max_items ≤ recs'.length then recs'
      else recLoop known r max_items rest recs'

/-- `recommend_items(self, dataset, u, max_items, return_scores=True)`
(the `return_scores=False` variant just strips the scores). -/
def recommend_items (self : Rec) (dataset : Mat) (u max_items : Nat) :
    Except String (List (Nat × ℚ)) :=
  match self.similarity_matrix with
  | none => .error "you must call fit() before trying to recommend items"
  | some sim =>
    let r := singleScores sim dataset u
    .ok (recLoop (knownItems dataset u) r max_items ((argsort r sim.rows).reverse) [])

/-- Modelled from the spec: `_zero_known_item_scores` is defined in
`mrec/base_recommender.py`, which is not among the sources; spec 4.5 step 1:
"zero out every entry in that user's Score Row at column indices that are
non-zero in that user's Interaction Matrix row" (a row has `d.cols` columns,
so those indices are exactly `knownItems d u`). -/
def zero_known_item_scores (d : Mat) (u : Nat) (r : Nat → ℚ) : Nat → ℚ :=
  fun i => if i ∈ knownItems d u then 0 else r i

/-- Descending order on `(score, index)` pairs used to model
`sorted(izip(ru.data, ru.indices), reverse=True)` (pairs are distinct in
their second component, so this is the exact reverse lexicographic order). -/
def bRel (a b : ℚ × Nat) : Prop :=
  b.1 < a.1 ∨ (a.1 = b.1 ∧ b.2 ≤ a.2)

instance : DecidableRel bRel := fun a b => by
  unfold bRel; infer_instance

/-- One user's selection in `_get_recommendations_from_predictions` (line 246):
`[(i,v) for v,i in sorted(izip(ru.data,ru.indices),reverse=True) if v > 0][:max_items]`.
Entries of `ru` stored as explicit zeros are removed by the `v > 0` test, so
enumerating every column of the masked row is observationally equivalent to
enumerating the stored entries. -/
def selectRow (ru : Nat → ℚ) (n max_items : Nat) : List (Nat × ℚ) :=
  ((((List.insertionSort bRel ((List.range n).map (fun i => (ru i, i)))).filter
      (fun p => decide (0 < p.1))).map (fun p => (p.2, p.1))).take max_items)

/-- `_get_recommendations_from_predictions(self, r, dataset, user_start,
user_end, max_items, ...)`: mask each user's known items to zero, then select
per user; `rpred ux` is row `ux` of the predicted score matrix `r`, which
corresponds to user `user_start + ux`. -/
def get_recommendations_from_predictions (rpred : Nat → Nat → ℚ) (n : Nat)
    (d : Mat) (user_start user_end max_items : Nat) : List (List (Nat × ℚ)) :=
  (List.range (user_end - user_start)).map (fun ux =>
    selectRow (zero_known_item_scores d (user_start + ux) (rpred ux)) n max_items)

/-- `batch_recommend_items(self, dataset, max_items, return_scores=True, ...)`:
`r = dataset * self.similarity_matrix.T`, then select for users
`[0, r.shape[0])`. -/
def batch_recommend_items (self : Rec) (dataset : Mat) (max_items : Nat) :
    Except String (List (List (Nat × ℚ))) :=
  match self.similarity_matrix with
  | none => .error "you must call fit() before trying to recommend items"
  | some sim =>
    .ok (get_recommendations_from_predictions (fun ux => projScores sim dataset ux)
      sim.rows dataset 0 dataset.rows max_items)

/-- `range_recommend_items(self, dataset, user_start, user_end, max_items, ...)`:
`r = dataset[user_start:user_end,:] * self.similarity_matrix.T`, whose row `ux`
holds the scores of user `user_start + ux`. -/
def range_recommend_items (self : Rec) (dataset : Mat)
    (user_start user_end max_items : Nat) : Except String (List (List (Nat × ℚ))) :=
  match self.similarity_matrix with
  | none => .error "you must call fit() before trying to recommend items"
  | some sim =>
    .ok (get_recommendations_from_predictions
      (fun ux => projScores sim dataset (user_start + ux))
      sim.rows dataset user_start user_end max_items)

/-- Stable-descending-by-score order on `(index, score)` pairs, modelling
`sorted(w, key=itemgetter(1), reverse=True)`. -/
def sRel (a b : Nat × ℚ) : Prop := b.2 ≤ a.2

instance : DecidableRel sRel := fun a b => by
  unfold sRel; infer_instance

/-- `get_similar_items`, similarity-matrix branch (lines 106-109):
`w = zip(row.indices, row.data)`, stable sort by score descending, truncate,
then keep the strictly positive scores. -/
def get_similar_items_fitted (sim : Mat) (j max_similar_items : Nat) :
    List (Nat × ℚ) :=
  let w := (List.range sim.cols).filterMap
    (fun i => if sim.entry j i ≠ 0 then some (i, sim.entry j i) else none)
  ((List.insertionSort sRel w).take max_similar_items).filter
    (fun p => decide (0 < p.2))

/-- `get_similar_items`, fallback branch (lines 110-112): `w` is the vector
returned by `compute_similarities(dataset, j)`;
`w.argsort()[-1:-max_similar_items-1:-1]` is the reversed argsort truncated to
`max_similar_items`, and the comprehension keeps strictly positive scores. -/
def get_similar_items_fallback (w : List ℚ) (max_similar_items : Nat) :
    List (Nat × ℚ) :=
  let wf := fun i => w.getD i 0
  ((((argsort wf w.length).reverse).take max_similar_items).filter
    (fun i => decide (0 < wf i))).map (fun i => (i, wf i))

/-- `get_similar_items(self, j, max_similar_items, dataset=None)`; `w` stands
for the vector `self.compute_similarities(dataset, j)` the fallback branch
would compute. -/
def get_similar_items (self : Rec) (w : List ℚ) (j max_similar_items : Nat) :
    List (Nat × ℚ) :=
  match self.similarity_matrix with
  | some sim => get_similar_items_fitted sim j max_similar_items
  | none => get_similar_items_fallback w max_similar_items

/-- `csr_matrix((data, idx), shape)` built from `(value, row, col)` triplets;
scipy sums duplicate coordinates. -/
def csr_from_triplets (triplets : List (ℚ × Nat × Nat)) (shape : Nat × Nat) : Mat :=
  { rows := shape.1, cols := shape.2,
    entry := fun r c =>
      ((triplets.filter (fun t => t.2.1 == r && t.2.2 == c)).map (fun t => t.1)).sum }

/-- `fit(self, dataset)` (lines 20-45): for each item `j` call the pluggable
`compute_similarities` (which may fail), collect the non-zero `(v, j, k)`
triplets, and only after every item succeeded install the assembled matrix.
The similarity function is a parameter, as it is an abstract method. -/
def fit (compute_similarities : Mat → Nat → Except String (List ℚ))
    (dataset : Mat) (_self : Rec) : Except String Rec :=
  match (List.range dataset.cols).mapM (fun j => compute_similarities dataset j) with
  | .error e => .error e
  | .ok ws =>
    let triplets := (ws.enum.map (fun jw =>
      jw.2.enum.filterMap
        (fun kv => if kv.2 ≠ 0 then some (kv.2, jw.1, kv.1) else none))).flatten
    let m := csr_from_triplets triplets (dataset.cols, dataset.cols)
    .ok { similarity_matrix := some m }

/-- `load_similarity_matrix(self, filepath, num_items, offset=1)` (lines 47-65):
`y` is the parsed triplet table; both indices are shifted by `-offset` and the
matrix is built with shape `(num_items, num_items)`. -/
def load_similarity_matrix (y : List (Int × Int × ℚ)) (num_items : Nat)
    (offset : Int) (_self : Rec) : Rec :=
  let m : Mat :=
    { rows := num_items, cols := num_items,
      entry := fun r c =>
        ((y.filter (fun t => t.1 - offset == (r : Int) && t.2.1 - offset == (c : Int))).map
          (fun t => t.2.2)).sum }
  { similarity_matrix := some m }

/-- Strict reverse-lexicographic order on `(score, index)` pairs: the order in
which the batch/range selection emits candidates. -/
def pairGt (a b : ℚ × Nat) : Prop :=
  b.1 < a.1 ∨ (a.1 = b.1 ∧ b.2 < a.2)

/-- `pairGt` transported to the emitted `(index, score)` pairs: score strictly
descending, ties broken by item index descending. -/
def outGt (a b : Nat × ℚ) : Prop :=
  b.2 < a.2 ∨ (a.2 = b.2 ∧ b.1 < a.1)

instance : DecidableRel pairGt := fun a b => by
  unfold pairGt; infer_instance

instance : DecidableRel outGt := fun a b => by
  unfold outGt; infer_instance

instance : IsTotal (ℚ × Nat) bRel :=
  ⟨fun a b => by
    unfold bRel
    rcases lt_trichotomy a.1 b.1 with h | h | h
    · exact Or.inr (Or.inl h)
    · rcases Nat.le_total a.2 b.2 with h2 | h2
      · exact Or.inr (Or.inr ⟨h.symm, h2⟩)
      · exact Or.inl (Or.inr ⟨h, h2⟩)
    · exact Or.inl (Or.inl h)⟩

instance : IsTrans (ℚ × Nat) bRel :=
  ⟨fun a b c hab hbc => by
    unfold bRel at *
    rcases hab with h | ⟨h1, h2⟩ <;> rcases hbc with g | ⟨g1, g2⟩
    · exact Or.inl (lt_trans g h)
    · exact Or.inl (g1 ▸ h)
    · exact Or.inl (h1 ▸ g)
    · exact Or.inr ⟨h1.trans g1, le_trans g2 h2⟩⟩

instance : IsTotal (Nat × ℚ) sRel :=
  ⟨fun a b => by unfold sRel; exact le_total b.2 a.2⟩

instance : IsTrans (Nat × ℚ) sRel :=
  ⟨fun a b c hab hbc => by unfold sRel at *; exact le_trans hbc hab⟩

instance (r : Nat → ℚ) : IsTotal Nat (argRel r) :=
  ⟨fun i j => by
    unfold argRel
    rcases lt_trichotomy (r i) (r j) with h | h | h
    · exact Or.inl (Or.inl h)
    · rcases Nat.le_total i j with h2 | h2
      · exact Or.inl (Or.inr ⟨h, h2⟩)
      · exact Or.inr (Or.inr ⟨h.symm, h2⟩)
    · exact Or.inr (Or.inl h)⟩

instance (r : Nat → ℚ) : IsTrans Nat (argRel r) :=
  ⟨fun i j k hij hjk => by
    unfold argRel at *
    rcases hij with h | ⟨h1, h2⟩ <;> rcases hjk with g | ⟨g1, g2⟩
    · exact Or.inl (lt_trans h g)
    · exact Or.inl (g1 ▸ h)
    · exact Or.inl (h1 ▸ g)
    · exact Or.inr ⟨h1.trans g1, le_trans h2 g2⟩⟩

/-! Concrete instances used by counterexamples and witnesses. -/

/-- Interaction matrix of the spec's concrete scenario (C2): 3 users, 4 items,
user 0 has known items 0 and 2 with weight 1. -/
def dC2 : Mat :=
  { rows := 3, cols := 4,
    entry := fun u i => ([[1, 0, 1, 0], [0, 0, 0, 0], [0, 0, 0, 0]].getD u []).getD i (0 : ℚ) }

/-- Similarity matrix with the rows the spec's concrete scenario prescribes:
row 0 = `[0, 0.8, 0.1, 0]`, row 2 = `[0.3, 0, 0, 0.9]`, other rows zero. -/
def simC2 : Mat :=
  { rows := 4, cols := 4,
    entry := fun j k =>
      ([[0, 4/5, 1/10, 0], [0, 0, 0, 0], [3/10, 0, 0, 9/10], [0, 0, 0, 0]].getD j []).getD k (0 : ℚ) }

/-- The transpose of `simC2`: the scenario's vectors installed as columns. -/
def simC2T : Mat :=
  { rows := 4, cols := 4, entry := fun j k => simC2.entry k j }

def stC2 : Rec := { similarity_matrix := some simC2 }

def stC2T : Rec := { similarity_matrix := some simC2T }

/-- 1 user, 2 items; the user's only known item is item 0 (weight 1). -/
def dZ : Mat :=
  { rows := 1, cols := 2, entry := fun u i => if u = 0 ∧ i = 0 then 1 else 0 }

/-- The all-zero 2×2 similarity matrix. -/
def simZ : Mat := { rows := 2, cols := 2, entry := fun _ _ => 0 }

def stZ : Rec := { similarity_matrix := some simZ }

/-- 2×2 similarity matrix whose only non-zero entry is `(1,0) = 1`, so user 0
of `dZ` scores item 1 with 1. -/
def simW : Mat :=
  { rows := 2, cols := 2, entry := fun j k => if j = 1 ∧ k = 0 then 1 else 0 }

def stW : Rec := { similarity_matrix := some simW }

/-- 2×2 similarity matrix whose row 0 is `[1/2, 1/2]`: two tied similarity
scores. -/
def simT : Mat :=
  { rows := 2, cols := 2, entry := fun j _k => if j = 0 then 1/2 else 0 }

def stT : Rec := { similarity_matrix := some simT }

/-- The triplet source of the spec's loading scenario (C8). -/
def yC8 : List (Int × Int × ℚ) := [(1, 2, 1/2), (2, 1, 1/2)]

/-- A recommender on which neither `fit` nor `load_similarity_matrix` has
completed. -/
def stN : Rec := { similarity_matrix := none }

/-- The matrix produced by the C8 loading scenario (defaulting, for the sake
of a total definition, to an empty matrix that `load_similarity_matrix` never
returns). -/
def simC8 : Mat :=
  (load_similarity_matrix yC8 3 1 stN).similarity_matrix.getD
    { rows := 0, cols := 0, entry := fun _ _ => 0 }

/-! ## Theorems -/

/-- C2, counterexample: with the Similarity Matrix rows exactly as the claim
states them (row 0 = `[0, 0.8, 0.1, 0]`, row 2 = `[0.3, 0, 0, 0.9]`),
`recommend_items(dataset, 0, max_items=2, return_scores=True)` returns
`[(3, 0), (1, 0)]` — the code computes `similarity_matrix * dataset[u].T`,
which dots the *rows* of the matrix with the user vector, i.e. sums the
*columns* 0 and 2, not the rows — so the claimed `[(3, 0.9), (1, 0.8)]` is not
returned. -/
theorem claim2_counterexample :
    recommend_items stC2 dC2 0 2 = Except.ok [(3, 0), (1, 0)] ∧
    Except.ok [((3 : Nat), (0 : ℚ)), (1, 0)] ≠
      (Except.ok [(3, 9/10), (1, 4/5)] : Except String (List (Nat × ℚ))) := by
  constructor
  · norm_num [recommend_items, stC2, simC2, dC2, recLoop, argsort, argRel,
      singleScores, knownItems, List.range_succ, List.insertionSort, List.orderedInsert]
  · intro h
    have := congrArg (fun x => ((x.toOption.getD []).headD (0, 0)).2) h
    norm_num [Except.toOption] at this

/-- C2, amended: the scenario holds with the two similarity vectors installed
as *columns* of the Similarity Matrix (equivalently, with the matrix
transposed): then user 0's raw scores are `[0.3, 0.8, 0.1, 0.9]` and
`recommend_items(dataset, 0, max_items=2, return_scores=True)` returns exactly
`[(3, 0.9), (1, 0.8)]`. -/
theorem claim2_amended_transposed :
    recommend_items stC2T dC2 0 2 = Except.ok [(3, 9/10), (1, 4/5)] := by
  norm_num [recommend_items, stC2T, simC2T, simC2, dC2, recLoop, argsort, argRel,
    singleScores, knownItems, List.range_succ, List.insertionSort, List.orderedInsert]

/-- C6: with no similarity matrix (neither `fit` nor `load_similarity_matrix`
has completed, modelled by the absent attribute `similarity_matrix = none`),
every call to `recommend_items`, `batch_recommend_items` or
`range_recommend_items` fails with the distinct "not fitted" error message
instead of returning a result. -/
theorem claim6_not_fitted_error :
    ∀ (d : Mat) (u us ue m : Nat),
      recommend_items stN d u m =
        Except.error "you must call fit() before trying to recommend items" ∧
      batch_recommend_items stN d m =
        Except.error "you must call fit() before trying to recommend items" ∧
      range_recommend_items stN d us ue m =
        Except.error "you must call fit() before trying to recommend items" :=
  fun _ _ _ _ _ => ⟨rfl, rfl, rfl⟩

/-- C7: evaluation at the failing input. User 0 of `dZ` knows item 0, and
`simW` scores the unknown item 1 with 1; `recommend_items` with
`max_items = 0` returns the one-element list `[(1, 1)]` instead of the empty
list, because the `len(recs) >= max_items` check only runs *after* an
append. -/
theorem claim7_failing_input_eval :
    recommend_items stW dZ 0 0 = Except.ok [(1, 1)] ∧
    ([((1 : Nat), (1 : ℚ))] : List (Nat × ℚ)).length ≠ 0 := by
  constructor
  · norm_num [recommend_items, stW, simW, dZ, recLoop, argsort, argRel,
      singleScores, knownItems, List.range_succ, List.insertionSort, List.orderedInsert]
  · simp

/-- C8: loading the triplet source `[(1,2,0.5),(2,1,0.5)]` with `offset = 1`
and `num_items = 3` yields a 3×3 matrix whose only non-zero entries are
`(0,1) = 0.5` and `(1,0) = 0.5` (row 2 and column 2 all zero), and in general
`load_similarity_matrix` always produces a matrix of shape
`(num_items, num_items)` regardless of the indices in the source. -/
theorem claim8_load_shape_and_entries :
    (simC8.rows = 3 ∧ simC8.cols = 3 ∧
      simC8.entry 0 1 = 1/2 ∧ simC8.entry 1 0 = 1/2 ∧
      simC8.entry 0 0 = 0 ∧ simC8.entry 0 2 = 0 ∧ simC8.entry 1 1 = 0 ∧
      simC8.entry 1 2 = 0 ∧ simC8.entry 2 0 = 0 ∧ simC8.entry 2 1 = 0 ∧
      simC8.entry 2 2 = 0) ∧
    ∀ (y : List (Int × Int × ℚ)) (n : Nat) (off : Int) (s : Rec),
      ∃ m, (load_similarity_matrix y n off s).similarity_matrix = some m ∧
        m.rows = n ∧ m.cols = n := by
  constructor
  · refine ⟨rfl, rfl, ?_, ?_, ?_, ?_, ?_, ?_, ?_, ?_, ?_⟩ <;>
      norm_num [simC8, load_similarity_matrix, yC8, stN]
  · exact fun y n off s => ⟨_, rfl, rfl, rfl⟩


theorem sorted_pairs (r : Nat → ℚ) (n : Nat) :
    List.Sorted bRel (List.insertionSort bRel ((List.range n).map (fun i => (r i, i)))) :=
  List.sorted_insertionSort bRel _

theorem snd_ne_pairs (r : Nat → ℚ) (n : Nat) :
    (List.insertionSort bRel ((List.range n).map (fun i => (r i, i)))).Pairwise
      (fun a b => a.2 ≠ b.2) := by
  have hperm := List.perm_insertionSort bRel ((List.range n).map (fun i => (r i, i)))
  refine (List.Perm.pairwise_iff (fun h => Ne.symm h) hperm).mpr ?_
  refine List.pairwise_map.mpr ?_
  exact (List.pairwise_lt_range n).imp (fun h => Nat.ne_of_lt h)

theorem sorted_pairs_strict (r : Nat → ℚ) (n : Nat) :
    (List.insertionSort bRel ((List.range n).map (fun i => (r i, i)))).Pairwise pairGt := by
  have h1 : (List.insertionSort bRel ((List.range n).map (fun i => (r i, i)))).Pairwise bRel :=
    sorted_pairs r n
  refine (h1.and (snd_ne_pairs r n)).imp ?_
  rintro a b ⟨hb, hne⟩
  rcases hb with h | ⟨h1', h2⟩
  · exact Or.inl h
  · exact Or.inr ⟨h1', lt_of_le_of_ne h2 (Ne.symm hne)⟩

theorem mem_selectRow {ru : Nat → ℚ} {n m : Nat} {p : Nat × ℚ}
    (hp : p ∈ selectRow ru n m) : p.2 = ru p.1 ∧ 0 < p.2 ∧ p.1 < n := by
  unfold selectRow at hp
  have hp1 := List.mem_of_mem_take hp
  obtain ⟨q, hq, rfl⟩ := List.mem_map.mp hp1
  obtain ⟨hq2, hq3⟩ := List.mem_filter.mp hq
  have hq4 : q ∈ (List.range n).map (fun i => (ru i, i)) :=
    (List.perm_insertionSort bRel _).mem_iff.mp hq2
  obtain ⟨i, hi, rfl⟩ := List.mem_map.mp hq4
  refine ⟨rfl, ?_, List.mem_range.mp hi⟩
  simpa using hq3

theorem selectRow_pairwise (ru : Nat → ℚ) (n m : Nat) :
    (selectRow ru n m).Pairwise outGt := by
  unfold selectRow
  refine List.Pairwise.sublist (List.take_sublist _ _) ?_
  refine List.pairwise_map.mpr ?_
  refine List.Pairwise.filter _ ?_
  refine (sorted_pairs_strict ru n).imp ?_
  intro a b h
  exact h

theorem grfp_getElem (rpred : Nat → Nat → ℚ) (n : Nat) (d : Mat)
    (us ue m u : Nat) (h1 : us ≤ u) (h2 : u < ue) :
    (get_recommendations_from_predictions rpred n d us ue m)[u - us]? =
      some (selectRow (zero_known_item_scores d u (rpred (u - us))) n m) := by
  unfold get_recommendations_from_predictions
  rw [List.getElem?_map, List.getElem?_range (show u - us < ue - us by omega)]
  simp [Nat.add_sub_cancel' h1]

theorem grfp_length (rpred : Nat → Nat → ℚ) (n : Nat) (d : Mat) (us ue m : Nat) :
    (get_recommendations_from_predictions rpred n d us ue m).length = ue - us := by
  simp [get_recommendations_from_predictions]

theorem mem_grfp {rpred : Nat → Nat → ℚ} {n : Nat} {d : Mat} {us ue m : Nat}
    {lu : List (Nat × ℚ)}
    (h : lu ∈ get_recommendations_from_predictions rpred n d us ue m) :
    ∃ ux, lu = selectRow (zero_known_item_scores d (us + ux) (rpred ux)) n m := by
  unfold get_recommendations_from_predictions at h
  obtain ⟨ux, _, rfl⟩ := List.mem_map.mp h
  exact ⟨ux, rfl⟩

theorem recLoop_eq_take (known : List Nat) (r : Nat → ℚ) (m : Nat) :
    ∀ (order : List Nat) (acc : List (Nat × ℚ)), acc.length < max m 1 →
      recLoop known r m order acc =
        acc ++ (((order.filter (fun i => decide (i ∉ known))).map
          (fun i => (i, r i))).take (max m 1 - acc.length)) := by
  intro order
  induction order with
  | nil => intro acc _; simp [recLoop]
  | cons i rest ih =>
    intro acc hacc
    by_cases hik : i ∈ known
    · simpa [recLoop, hik] using ih acc hacc
    · rw [recLoop]
      simp only [if_neg hik]
      by_cases hbreak : m ≤ (acc ++ [(i, r i)]).length
      · rw [if_pos hbreak]
        have hlen : (acc ++ [(i, r i)]).length = acc.length + 1 := by simp
        have h1 : max m 1 - acc.length = 1 := by
          rw [hlen] at hbreak; omega
        simp [hik, h1]
      · rw [if_neg hbreak]
        have hlen : (acc ++ [(i, r i)]).length = acc.length + 1 := by simp
        have hm2 : acc.length + 1 < m := by rw [hlen] at hbreak; omega
        rw [ih (acc ++ [(i, r i)]) (by omega)]
        have h2 : max m 1 - acc.length = (max m 1 - (acc ++ [(i, r i)]).length) + 1 := by
          rw [hlen]; omega
        simp only [h2, hlen]
        simp [hik, List.take_succ_cons]

theorem recommend_items_eq (sim d : Mat) (u m : Nat) :
    recommend_items { similarity_matrix := some sim } d u m =
      Except.ok (((((argsort (singleScores sim d u) sim.rows).reverse).filter
          (fun i => decide (i ∉ knownItems d u))).map
        (fun i => (i, singleScores sim d u i))).take (max m 1)) := by
  have h : recommend_items { similarity_matrix := some sim } d u m =
      Except.ok (recLoop (knownItems d u) (singleScores sim d u) m
        ((argsort (singleScores sim d u) sim.rows).reverse) []) := rfl
  rw [h, recLoop_eq_take (knownItems d u) (singleScores sim d u) m
    ((argsort (singleScores sim d u) sim.rows).reverse) [] (by simp)]
  simp

theorem eval_batch_stW :
    batch_recommend_items { similarity_matrix := some simW } dZ 1 = Except.ok [[(1, 1)]] := by
  norm_num [batch_recommend_items, stW, get_recommendations_from_predictions, selectRow,
    zero_known_item_scores, knownItems, projScores, bRel, simW, dZ, List.range_succ,
    List.insertionSort, List.orderedInsert]

theorem eval_range_stW :
    range_recommend_items { similarity_matrix := some simW } dZ 0 1 1 = Except.ok [[(1, 1)]] := by
  norm_num [range_recommend_items, stW, get_recommendations_from_predictions, selectRow,
    zero_known_item_scores, knownItems, projScores, bRel, simW, dZ, List.range_succ,
    List.insertionSort, List.orderedInsert]

theorem eval_single_stW :
    recommend_items { similarity_matrix := some simW } dZ 0 1 = Except.ok [(1, 1)] := by
  norm_num [recommend_items, stW, simW, dZ, recLoop, argsort, argRel,
    singleScores, knownItems, List.range_succ, List.insertionSort, List.orderedInsert]

/-- C1: a known item of user `u` (a non-zero column of row `u` of the
interaction matrix) never appears in the output of `recommend_items` for `u`,
nor in the entry for `u` of the lists returned by `range_recommend_items` or
`batch_recommend_items`. -/
theorem claim1_known_items_never_recommended :
    ∀ (sim d : Mat) (u us ue m : Nat) (recs : List (Nat × ℚ))
      (bl rl : List (List (Nat × ℚ))),
      recommend_items { similarity_matrix := some sim } d u m = Except.ok recs →
      batch_recommend_items { similarity_matrix := some sim } d m = Except.ok bl →
      range_recommend_items { similarity_matrix := some sim } d us ue m = Except.ok rl →
      us ≤ u →
      (∀ p ∈ recs, p.1 ∉ knownItems d u) ∧
      (∀ lu, bl[u]? = some lu → ∀ p ∈ lu, p.1 ∉ knownItems d u) ∧
      (∀ lu, rl[u - us]? = some lu → ∀ p ∈ lu, p.1 ∉ knownItems d u) := by
  intro sim d u us ue m recs bl rl hr hb hrg hus
  refine ⟨?_, ?_, ?_⟩
  · rw [recommend_items_eq] at hr
    injection hr with hr
    subst hr
    intro p hp
    obtain ⟨i, hi, rfl⟩ := List.mem_map.mp (List.mem_of_mem_take hp)
    obtain ⟨-, hPi⟩ := List.mem_filter.mp hi
    simpa using hPi
  · have hb' : batch_recommend_items { similarity_matrix := some sim } d m =
        Except.ok (get_recommendations_from_predictions (fun ux => projScores sim d ux)
          sim.rows d 0 d.rows m) := rfl
    rw [hb'] at hb
    injection hb with hb
    subst hb
    intro lu hlu p hp
    by_cases hu : u < d.rows
    · rw [show u = u - 0 from rfl, grfp_getElem _ _ _ _ _ _ _ (Nat.zero_le u)
        (by omega)] at hlu
      injection hlu with hlu
      subst hlu
      obtain ⟨hscore, hpos, -⟩ := mem_selectRow hp
      intro hmem
      rw [zero_known_item_scores, if_pos hmem] at hscore
      rw [hscore] at hpos
      exact absurd hpos (lt_irrefl 0)
    · rw [List.getElem?_eq_none (by rw [grfp_length]; omega)] at hlu
      exact absurd hlu (by simp)
  · have hrg' : range_recommend_items { similarity_matrix := some sim } d us ue m =
        Except.ok (get_recommendations_from_predictions
          (fun ux => projScores sim d (us + ux)) sim.rows d us ue m) := rfl
    rw [hrg'] at hrg
    injection hrg with hrg
    subst hrg
    intro lu hlu p hp
    by_cases hu : u < ue
    · rw [grfp_getElem _ _ _ _ _ _ _ hus hu] at hlu
      injection hlu with hlu
      subst hlu
      obtain ⟨hscore, hpos, -⟩ := mem_selectRow hp
      intro hmem
      rw [zero_known_item_scores, if_pos hmem] at hscore
      rw [hscore] at hpos
      exact absurd hpos (lt_irrefl 0)
    · rw [List.getElem?_eq_none (by rw [grfp_length]; omega)] at hlu
      exact absurd hlu (by simp)

/-- Witness for C1 at a concrete fitted instance. -/
theorem claim1_witness : (1 : Nat) ∉ knownItems dZ 0 := by
  have h := claim1_known_items_never_recommended simW dZ 0 0 1 1 [(1, 1)] [[(1, 1)]]
    [[(1, 1)]] ?hr ?hb ?hrg (le_refl 0)
  · exact h.1 (1, 1) (by simp)
  case hr => exact eval_single_stW
  case hb => exact eval_batch_stW
  case hrg => exact eval_range_stW

/-- C10: every per-user list produced by `batch_recommend_items` or
`range_recommend_items` is sorted under `outGt`: score strictly descending,
and candidates with equal score ordered by item index descending (the
selection sorts `(score, index)` pairs in reverse lexicographic order), so the
per-user output is a deterministic function of the score row and the
known-item mask. -/
theorem claim10_deterministic_tie_order :
    ∀ (sim d : Mat) (us ue m : Nat) (bl rl : List (List (Nat × ℚ))),
      batch_recommend_items { similarity_matrix := some sim } d m = Except.ok bl →
      range_recommend_items { similarity_matrix := some sim } d us ue m = Except.ok rl →
      (∀ lu ∈ bl, lu.Pairwise outGt) ∧ (∀ lu ∈ rl, lu.Pairwise outGt) := by
  intro sim d us ue m bl rl hb hrg
  constructor
  · have hb' : batch_recommend_items { similarity_matrix := some sim } d m =
        Except.ok (get_recommendations_from_predictions (fun ux => projScores sim d ux)
          sim.rows d 0 d.rows m) := rfl
    rw [hb'] at hb
    injection hb with hb
    subst hb
    intro lu hlu
    obtain ⟨ux, rfl⟩ := mem_grfp hlu
    exact selectRow_pairwise _ _ _
  · have hrg' : range_recommend_items { similarity_matrix := some sim } d us ue m =
        Except.ok (get_recommendations_from_predictions
          (fun ux => projScores sim d (us + ux)) sim.rows d us ue m) := rfl
    rw [hrg'] at hrg
    injection hrg with hrg
    subst hrg
    intro lu hlu
    obtain ⟨ux, rfl⟩ := mem_grfp hlu
    exact selectRow_pairwise _ _ _

/-- Witness for C10 at a concrete fitted instance. -/
theorem claim10_witness : ([((1 : Nat), (1 : ℚ))] : List (Nat × ℚ)).Pairwise outGt := by
  have h := claim10_deterministic_tie_order simW dZ 0 1 1 [[(1, 1)]] [[(1, 1)]] ?hb ?hrg
  · exact h.1 [(1, 1)] (by simp)
  case hb => exact eval_batch_stW
  case hrg => exact eval_range_stW

/-- C3, counterexample: with an all-zero similarity matrix, user 0 of `dZ`
(whose only known item is 0) receives the recommendation `(1, 0)` from
`recommend_items` — a score that is not strictly positive, because the
single-user path has no `v > 0` filter. -/
theorem claim3_counterexample :
    recommend_items stZ dZ 0 10 = Except.ok [(1, 0)] ∧
    ¬ (∀ p ∈ ([((1 : Nat), (0 : ℚ))] : List (Nat × ℚ)), 0 < p.2) := by
  constructor
  · norm_num [recommend_items, stZ, simZ, dZ, recLoop, argsort, argRel,
      singleScores, knownItems, List.range_succ, List.insertionSort, List.orderedInsert]
  · intro h
    have := h (1, 0) (by simp)
    norm_num at this

/-- C3, amended: every score in the per-user lists of
`range_recommend_items` and `batch_recommend_items` is strictly positive, and
every score returned by `get_similar_items` (both branches) is strictly
positive; `recommend_items`, however, appends unknown items regardless of
score sign, so its lists may contain zero or negative scores. -/
theorem claim3_amended_positive_scores :
    ∀ (sim d : Mat) (us ue m : Nat) (bl rl : List (List (Nat × ℚ)))
      (st : Rec) (w : List ℚ) (j k : Nat),
      batch_recommend_items { similarity_matrix := some sim } d m = Except.ok bl →
      range_recommend_items { similarity_matrix := some sim } d us ue m = Except.ok rl →
      (∀ lu ∈ bl, ∀ p ∈ lu, 0 < p.2) ∧ (∀ lu ∈ rl, ∀ p ∈ lu, 0 < p.2) ∧
      (∀ p ∈ get_similar_items st w j k, 0 < p.2) := by
  intro sim d us ue m bl rl st w j k hb hrg
  refine ⟨?_, ?_, ?_⟩
  · have hb' : batch_recommend_items { similarity_matrix := some sim } d m =
        Except.ok (get_recommendations_from_predictions (fun ux => projScores sim d ux)
          sim.rows d 0 d.rows m) := rfl
    rw [hb'] at hb
    injection hb with hb
    subst hb
    intro lu hlu p hp
    obtain ⟨ux, rfl⟩ := mem_grfp hlu
    exact (mem_selectRow hp).2.1
  · have hrg' : range_recommend_items { similarity_matrix := some sim } d us ue m =
        Except.ok (get_recommendations_from_predictions
          (fun ux => projScores sim d (us + ux)) sim.rows d us ue m) := rfl
    rw [hrg'] at hrg
    injection hrg with hrg
    subst hrg
    intro lu hlu p hp
    obtain ⟨ux, rfl⟩ := mem_grfp hlu
    exact (mem_selectRow hp).2.1
  · obtain ⟨o⟩ := st
    cases o with
    | some sim' =>
      intro p hp
      have hp' : p ∈ ((List.insertionSort sRel _).take k).filter
          (fun p => decide (0 < p.2)) := hp
      simpa using (List.mem_filter.mp hp').2
    | none =>
      intro p hp
      obtain ⟨i, hi, rfl⟩ := List.mem_map.mp hp
      obtain ⟨-, hPi⟩ := List.mem_filter.mp hi
      simpa using hPi

/-- Witness for C3 at a concrete fitted instance. -/
theorem claim3_witness : (0 : ℚ) < 1 := by
  have h := claim3_amended_positive_scores simW dZ 0 1 1 [[(1, 1)]] [[(1, 1)]]
    stN [] 0 0 ?hb ?hrg
  · exact h.1 [(1, 1)] (by simp) (1, 1) (by simp)
  case hb => exact eval_batch_stW
  case hrg => exact eval_range_stW

/-- C4, amended: `get_similar_items(j, k)` returns at most `k` pairs, sorted
by score in non-increasing (weakly descending) order, with every returned
score strictly positive — in both the similarity-matrix branch and the
compute-on-the-fly fallback branch. (Strictly descending fails on ties, see
the counterexample.) -/
theorem claim4_amended_topk :
    ∀ (st : Rec) (w : List ℚ) (j k : Nat),
      (get_similar_items st w j k).length ≤ k ∧
      (get_similar_items st w j k).Pairwise (fun a b => b.2 ≤ a.2) ∧
      ∀ p ∈ get_similar_items st w j k, 0 < p.2 := by
  intro st w j k
  obtain ⟨o⟩ := st
  cases o with
  | some sim =>
    simp only [get_similar_items, get_similar_items_fitted]
    refine ⟨?_, ?_, ?_⟩
    · exact le_trans (List.length_filter_le _ _) (List.length_take_le _ _)
    · refine List.Pairwise.filter _ ?_
      refine List.Pairwise.sublist (List.take_sublist _ _) ?_
      exact List.sorted_insertionSort sRel _
    · intro p hp
      have hp' : p ∈ ((List.insertionSort sRel _).take k).filter
          (fun p => decide (0 < p.2)) := hp
      simpa using (List.mem_filter.mp hp').2
  | none =>
    simp only [get_similar_items, get_similar_items_fallback]
    refine ⟨?_, ?_, ?_⟩
    · rw [List.length_map]
      exact le_trans (List.length_filter_le _ _) (List.length_take_le _ _)
    · refine List.pairwise_map.mpr ?_
      refine List.Pairwise.filter _ ?_
      refine List.Pairwise.sublist (List.take_sublist _ _) ?_
      refine List.pairwise_reverse.mpr ?_
      refine (List.sorted_insertionSort (argRel fun i => w.getD i 0) _).imp ?_
      intro a b h
      rcases h with h | ⟨h1, -⟩
      · exact le_of_lt h
      · exact le_of_eq h1
    · intro p hp
      obtain ⟨i, hi, rfl⟩ := List.mem_map.mp hp
      obtain ⟨-, hPi⟩ := List.mem_filter.mp hi
      simpa using hPi

/-- C4, counterexample: with similarity row 0 = `[1/2, 1/2]`,
`get_similar_items(0, 2)` returns two entries with equal scores, so the output
is not sorted in strictly descending score order. -/
theorem claim4_counterexample :
    get_similar_items stT [] 0 2 = [(0, 1/2), (1, 1/2)] ∧
    ¬ ([((0 : Nat), (1 : ℚ)/2), (1, 1/2)].Pairwise (fun a b => b.2 < a.2)) := by
  constructor
  · norm_num [get_similar_items, stT, get_similar_items_fitted, simT, sRel,
      List.range_succ, List.insertionSort, List.orderedInsert]
  · intro h
    have := (List.pairwise_cons.mp h).1 (1, 1/2) (by simp)
    norm_num at this

/-- Witness for C4 at a concrete fitted instance. -/
theorem claim4_witness : (get_similar_items stT [] 0 2).length ≤ 2 :=
  (claim4_amended_topk stT [] 0 2).1


theorem except_bind_ok {α β : Type} (a : α) (f : α → Except String β) :
    (Except.ok a >>= f) = f a := rfl

theorem except_bind_err {α β : Type} (e : String) (f : α → Except String β) :
    ((Except.error e : Except String α) >>= f) = Except.error e := rfl

theorem mapM_append_error {f : Nat → Except String (List ℚ)} {e : String} {a : Nat}
    (ha : f a = .error e) :
    ∀ (l1 : List Nat), (∀ i ∈ l1, ∃ w, f i = .ok w) → ∀ (l2 : List Nat),
      (l1 ++ a :: l2).mapM f = .error e := by
  intro l1
  induction l1 with
  | nil =>
    intro _ l2
    rw [List.nil_append, List.mapM_cons, ha, except_bind_err]
  | cons x t ih =>
    intro h l2
    obtain ⟨w, hw⟩ := h x (by simp)
    rw [List.cons_append, List.mapM_cons, hw, except_bind_ok,
      ih (fun i hi => h i (by simp [hi])) l2, except_bind_err]

theorem range_split {j n : Nat} (hj : j < n) :
    ∃ l2, List.range n = List.range j ++ j :: l2 := by
  have h1 : n = (j + 1) + (n - (j + 1)) := by omega
  refine ⟨(List.range (n - (j + 1))).map (fun x => j + 1 + x), ?_⟩
  rw [h1, List.range_add, List.range_succ]
  simp

/-- C9: if `compute_similarities` fails for some item `j` during `fit` (all
items before `j` having succeeded), the error propagates to the caller and no
similarity matrix is installed: `fit` returns no new state, so in this
state-passing embedding the caller's prior recommender state — including any
previously held matrix — is untouched. -/
theorem claim9_fit_atomic :
    ∀ (csim : Mat → Nat → Except String (List ℚ)) (d : Mat) (self : Rec)
      (j : Nat) (e : String),
      j < d.cols → csim d j = .error e → (∀ i, i < j → ∃ w, csim d i = .ok w) →
      fit csim d self = .error e ∧ ∀ st', fit csim d self ≠ .ok st' := by
  intro csim d self j e hj he hok
  obtain ⟨l2, hsplit⟩ := range_split hj
  have hmap : (List.range d.cols).mapM (fun j => csim d j) = .error e := by
    rw [hsplit]
    exact mapM_append_error he (List.range j)
      (fun i hi => hok i (List.mem_range.mp hi)) l2
  have hfit : fit csim d self = .error e := by
    unfold fit
    rw [hmap]
  exact ⟨hfit, fun st' h => by rw [hfit] at h; exact absurd h (by simp)⟩

/-- Witness for C9: a similarity function failing at item 0. -/
theorem claim9_witness :
    fit (fun _ _ => Except.error "boom") dZ stN = Except.error "boom" :=
  (claim9_fit_atomic (fun _ _ => Except.error "boom") dZ stN 0 "boom"
    (by norm_num [dZ]) rfl (fun i hi => absurd hi (Nat.not_lt_zero i))).1


theorem pairGt_antisymm {a b : ℚ × Nat} (hab : pairGt a b) (hba : pairGt b a) :
    a = b := by
  exfalso
  rcases hab with h | ⟨h1, h2⟩ <;> rcases hba with g | ⟨g1, g2⟩
  · exact absurd (lt_trans h g) (lt_irrefl _)
  · exact absurd h (g1 ▸ lt_irrefl _)
  · exact absurd g (h1 ▸ lt_irrefl _)
  · omega

theorem proj_eq_single (sim d : Mat) (u : Nat) (hdim : d.cols = sim.cols) :
    projScores sim d u = singleScores sim d u := by
  funext i
  unfold projScores singleScores
  rw [hdim]
  exact congrArg List.sum (List.map_congr_left (fun k _ => mul_comm _ _))

theorem filter_eq_takeWhile_of_sorted :
    ∀ (l : List (ℚ × Nat)), l.Pairwise (fun a b => b.1 ≤ a.1) →
      l.filter (fun p => decide (0 < p.1)) = l.takeWhile (fun p => decide (0 < p.1)) := by
  intro l
  induction l with
  | nil => intro _; rfl
  | cons a t ih =>
    intro hs
    have h1 : ∀ x ∈ t, x.1 ≤ a.1 := (List.pairwise_cons.mp hs).1
    have h2 := (List.pairwise_cons.mp hs).2
    by_cases hp : 0 < a.1
    · simp only [List.filter_cons, List.takeWhile_cons, decide_eq_true hp, ih h2,
        if_true, if_pos trivial]
    · simp only [List.filter_cons, List.takeWhile_cons, decide_eq_false hp]
      simp only [Bool.false_eq_true, if_false]
      refine List.filter_eq_nil_iff.mpr ?_
      intro x hx
      have := h1 x hx
      simp only [decide_eq_true_eq]
      push_neg at hp
      intro hc
      linarith

theorem take_takeWhile_of_all {α : Type} (p : α → Bool) :
    ∀ (l : List α) (m : Nat), (∀ x ∈ l.take m, p x = true) →
      (l.takeWhile p).take m = l.take m := by
  intro l
  induction l with
  | nil => simp
  | cons a t ih =>
    intro m hm
    cases m with
    | zero => simp
    | succ k =>
      have hpa : p a = true := hm a (by simp)
      rw [List.takeWhile_cons, hpa]
      simp only [if_true]
      rw [List.take_succ_cons, List.take_succ_cons,
        ih k (fun x hx => hm x (by simp [hx]))]

theorem ord_filter_eq (r : Nat → ℚ) (n : Nat) (known : List Nat) (ord : List Nat)
    (hperm : List.Perm ord (List.range n))
    (hsorted : ord.Pairwise (fun i j => r j ≤ r i))
    (hdist : ∀ i ∈ ord, ∀ j ∈ ord, i ∉ known → j ∉ known → i ≠ j → r i ≠ r j) :
    ord.filter (fun i => decide (i ∉ known)) =
      ((List.insertionSort bRel ((List.range n).map (fun i => (r i, i)))).filter
        (fun p => decide (p.2 ∉ known))).map Prod.snd := by
  have hanti : ∀ (a b : Nat), (fun i j => r j < r i) a b → (fun i j => r j < r i) b a →
      a = b := by
    intro a b hab hba
    exact absurd (lt_trans hab hba) (lt_irrefl _)
  have hne : ord.Pairwise (fun i j => i ≠ j) := by
    refine (List.Perm.pairwise_iff (fun h => Ne.symm h) hperm).mpr ?_
    exact (List.pairwise_lt_range n).imp (fun h => Nat.ne_of_lt h)
  have hLs : (ord.filter (fun i => decide (i ∉ known))).Pairwise
      (fun i j => r j < r i) := by
    refine List.Pairwise.imp_of_mem ?_
      ((hsorted.and hne).filter (fun i => decide (i ∉ known)))
    intro a b ha hb hab
    obtain ⟨hge, hne'⟩ := hab
    have ha' := List.mem_filter.mp ha
    have hb' := List.mem_filter.mp hb
    have hak : a ∉ known := by simpa using ha'.2
    have hbk : b ∉ known := by simpa using hb'.2
    exact lt_of_le_of_ne hge (fun hc => hdist a ha'.1 b hb'.1 hak hbk hne' hc.symm)
  have hRs : (((List.insertionSort bRel ((List.range n).map (fun i => (r i, i)))).filter
      (fun p => decide (p.2 ∉ known))).map Prod.snd).Pairwise
      (fun i j => r j < r i) := by
    refine List.pairwise_map.mpr ?_
    have hstrict := (sorted_pairs_strict r n).filter (fun p => decide (p.2 ∉ known))
    refine List.Pairwise.imp_of_mem ?_ hstrict
    intro a b ha hb hab
    have ha1 := List.mem_filter.mp ha
    have hb1 := List.mem_filter.mp hb
    have hashape : a.1 = r a.2 ∧ a.2 ∈ List.range n := by
      have := (List.perm_insertionSort bRel _).mem_iff.mp ha1.1
      obtain ⟨i, hi, rfl⟩ := List.mem_map.mp this
      exact ⟨rfl, hi⟩
    have hbshape : b.1 = r b.2 ∧ b.2 ∈ List.range n := by
      have := (List.perm_insertionSort bRel _).mem_iff.mp hb1.1
      obtain ⟨i, hi, rfl⟩ := List.mem_map.mp this
      exact ⟨rfl, hi⟩
    rcases hab with h | ⟨h1, h2⟩
    · rw [← hashape.1, ← hbshape.1]
      exact h
    · exfalso
      have hak : a.2 ∉ known := by simpa using ha1.2
      have hbk : b.2 ∉ known := by simpa using hb1.2
      have hao : a.2 ∈ ord := hperm.mem_iff.mpr hashape.2
      have hbo : b.2 ∈ ord := hperm.mem_iff.mpr hbshape.2
      refine hdist a.2 hao b.2 hbo hak hbk (ne_of_gt h2) ?_
      rw [← hashape.1, ← hbshape.1]
      exact h1
  have h1 : List.Perm (ord.filter (fun i => decide (i ∉ known)))
      ((List.range n).filter (fun i => decide (i ∉ known))) :=
    List.Perm.filter _ hperm
  have h2 : List.Perm ((List.insertionSort bRel
        ((List.range n).map (fun i => (r i, i)))).filter (fun p => decide (p.2 ∉ known)))
      (((List.range n).map (fun i => (r i, i))).filter (fun p => decide (p.2 ∉ known))) :=
    List.Perm.filter _ (List.perm_insertionSort _ _)
  have h3 : ((List.range n).map (fun i => (r i, i))).filter
      (fun p => decide (p.2 ∉ known)) =
      ((List.range n).filter (fun i => decide (i ∉ known))).map (fun i => (r i, i)) := by
    rw [List.filter_map]
    rfl
  have h4 : ((((List.range n).filter (fun i => decide (i ∉ known))).map
      (fun i => (r i, i))).map Prod.snd) =
      (List.range n).filter (fun i => decide (i ∉ known)) := by
    rw [List.map_map]
    exact List.map_id _
  have h5 : List.Perm (((List.insertionSort bRel
        ((List.range n).map (fun i => (r i, i)))).filter
      (fun p => decide (p.2 ∉ known))).map Prod.snd)
      ((List.range n).filter (fun i => decide (i ∉ known))) := by
    refine (h2.map Prod.snd).trans ?_
    rw [h3, h4]
  exact @List.eq_of_perm_of_sorted Nat _ ⟨hanti⟩ _ _ (h1.trans h5.symm) hLs hRs

theorem masked_filter_eq (d : Mat) (u : Nat) (r : Nat → ℚ) (n : Nat) :
    (List.insertionSort bRel ((List.range n).map
        (fun i => (zero_known_item_scores d u r i, i)))).filter
      (fun p => decide (p.2 ∉ knownItems d u)) =
    (List.insertionSort bRel ((List.range n).map (fun i => (r i, i)))).filter
      (fun p => decide (p.2 ∉ knownItems d u)) := by
  have hs1 := (sorted_pairs_strict (zero_known_item_scores d u r) n).filter
    (fun p => decide (p.2 ∉ knownItems d u))
  have hs2 := (sorted_pairs_strict r n).filter (fun p => decide (p.2 ∉ knownItems d u))
  have hX : ((List.range n).map (fun i => (zero_known_item_scores d u r i, i))).filter
      (fun p => decide (p.2 ∉ knownItems d u)) =
      ((List.range n).map (fun i => (r i, i))).filter
        (fun p => decide (p.2 ∉ knownItems d u)) := by
    rw [List.filter_map, List.filter_map]
    show ((List.range n).filter (fun i => decide (i ∉ knownItems d u))).map
        (fun i => (zero_known_item_scores d u r i, i)) =
      ((List.range n).filter (fun i => decide (i ∉ knownItems d u))).map
        (fun i => (r i, i))
    refine List.map_congr_left ?_
    intro i hi
    have hi2 : i ∉ knownItems d u := by
      have := (List.mem_filter.mp hi).2
      simpa using this
    simp only [zero_known_item_scores, if_neg hi2]
  have hp1 : List.Perm ((List.insertionSort bRel ((List.range n).map
        (fun i => (zero_known_item_scores d u r i, i)))).filter
      (fun p => decide (p.2 ∉ knownItems d u)))
      (((List.range n).map (fun i => (zero_known_item_scores d u r i, i))).filter
        (fun p => decide (p.2 ∉ knownItems d u))) :=
    List.Perm.filter _ (List.perm_insertionSort _ _)
  have hp2 : List.Perm ((List.insertionSort bRel
        ((List.range n).map (fun i => (r i, i)))).filter
      (fun p => decide (p.2 ∉ knownItems d u)))
      (((List.range n).map (fun i => (r i, i))).filter
        (fun p => decide (p.2 ∉ knownItems d u))) :=
    List.Perm.filter _ (List.perm_insertionSort _ _)
  have hp3 : List.Perm (((List.range n).map
        (fun i => (zero_known_item_scores d u r i, i))).filter
      (fun p => decide (p.2 ∉ knownItems d u)))
      ((List.insertionSort bRel ((List.range n).map (fun i => (r i, i)))).filter
        (fun p => decide (p.2 ∉ knownItems d u))) := by
    rw [hX]
    exact hp2.symm
  exact @List.eq_of_perm_of_sorted _ pairGt ⟨fun a b hab hba => pairGt_antisymm hab hba⟩
    _ _ (hp1.trans hp3) hs1 hs2

theorem filter_pos_eq_filter_unknown (d : Mat) (u : Nat) (r : Nat → ℚ) (n : Nat) :
    (List.insertionSort bRel ((List.range n).map
        (fun i => (zero_known_item_scores d u r i, i)))).filter
      (fun p => decide (0 < p.1)) =
    ((List.insertionSort bRel ((List.range n).map
        (fun i => (zero_known_item_scores d u r i, i)))).filter
      (fun p => decide (p.2 ∉ knownItems d u))).filter
        (fun p => decide (0 < p.1)) := by
  rw [List.filter_filter]
  refine (List.filter_congr ?_)
  intro a ha
  have ha2 := (List.perm_insertionSort bRel _).mem_iff.mp ha
  obtain ⟨i, -, rfl⟩ := List.mem_map.mp ha2
  by_cases h0 : (0 : ℚ) < zero_known_item_scores d u r i
  · have hunk : i ∉ knownItems d u := by
      intro hmem
      rw [zero_known_item_scores, if_pos hmem] at h0
      exact absurd h0 (lt_irrefl 0)
    simp [h0, hunk]
  · simp [h0]

theorem selectRow_eq_recs (sim d : Mat) (u m : Nat) (ord : List Nat)
    (recs : List (Nat × ℚ))
    (hdim : d.cols = sim.cols) (hm : 1 ≤ m)
    (hperm : List.Perm ord (List.range sim.rows))
    (hsorted : ord.Pairwise
      (fun i j => singleScores sim d u j ≤ singleScores sim d u i))
    (hdist : ∀ i ∈ ord, ∀ j ∈ ord, i ∉ knownItems d u → j ∉ knownItems d u →
      i ≠ j → singleScores sim d u i ≠ singleScores sim d u j)
    (hrecs : recs = recLoop (knownItems d u) (singleScores sim d u) m ord [])
    (hpos : ∀ p ∈ recs, 0 < p.2) :
    selectRow (zero_known_item_scores d u (projScores sim d u)) sim.rows m = recs := by
  rw [proj_eq_single sim d u hdim]
  set r := singleScores sim d u with hr
  set n := sim.rows with hn
  rw [recLoop_eq_take (knownItems d u) r m ord [] (by simp)] at hrecs
  simp only [List.nil_append, List.length_nil, Nat.sub_zero,
    Nat.max_eq_left hm] at hrecs
  -- the common filtered sorted pair list
  set l₁ := (List.insertionSort bRel ((List.range n).map (fun i => (r i, i)))).filter
    (fun p => decide (p.2 ∉ knownItems d u)) with hl₁
  have hshape : ∀ a ∈ l₁, a.1 = r a.2 := by
    intro a ha
    have ha2 := (List.mem_filter.mp ha).1
    have ha3 := (List.perm_insertionSort bRel _).mem_iff.mp ha2
    obtain ⟨i, -, rfl⟩ := List.mem_map.mp ha3
    rfl
  have hof : ord.filter (fun i => decide (i ∉ knownItems d u)) = l₁.map Prod.snd :=
    ord_filter_eq r n (knownItems d u) ord hperm hsorted hdist
  have hrecs2 : recs = (List.map (fun p => (p.2, p.1)) (l₁.take m)) := by
    rw [hrecs, hof, List.map_map, List.map_take]
    refine congrArg (List.take m) ?_
    refine (List.map_congr_left ?_).symm
    intro a ha
    show (a.2, a.1) = (a.2, r a.2)
    rw [hshape a ha]
  have hall : ∀ x ∈ l₁.take m, (fun p : ℚ × Nat => decide (0 < p.1)) x = true := by
    intro x hx
    have hmem : (x.2, x.1) ∈ recs := by
      rw [hrecs2]
      exact List.mem_map.mpr ⟨x, hx, rfl⟩
    have := hpos (x.2, x.1) hmem
    simpa using this
  have hl₁sorted : l₁.Pairwise (fun a b : ℚ × Nat => b.1 ≤ a.1) := by
    refine List.Pairwise.filter _ ?_
    refine (sorted_pairs r n).imp ?_
    intro a b h
    rcases h with h | ⟨h1, -⟩
    · exact le_of_lt h
    · exact le_of_eq h1.symm
  show ((((List.insertionSort bRel ((List.range n).map
      (fun i => (zero_known_item_scores d u r i, i)))).filter
      (fun p => decide (0 < p.1))).map (fun p => (p.2, p.1))).take m) = recs
  rw [filter_pos_eq_filter_unknown d u r n, masked_filter_eq d u r n, ← hl₁,
    filter_eq_takeWhile_of_sorted l₁ hl₁sorted, ← List.map_take,
    take_takeWhile_of_all _ l₁ m hall, hrecs2]

/-- C5, counterexample: with the all-zero similarity matrix `simZ` and the
dataset `dZ` (user 0 knows item 0), `recommend_items(0)` returns `[(1, 0)]`
while the entry for user 0 of both `batch_recommend_items` and
`range_recommend_items(0, 1)` is `[]` — the batch path drops the zero score
that the single-user path happily returns. -/
theorem claim5_counterexample :
    recommend_items stZ dZ 0 10 = Except.ok [(1, 0)] ∧
    batch_recommend_items stZ dZ 10 = Except.ok [[]] ∧
    range_recommend_items stZ dZ 0 1 10 = Except.ok [[]] ∧
    ([((1 : Nat), (0 : ℚ))] : List (Nat × ℚ)) ≠ [] := by
  refine ⟨?_, ?_, ?_, by simp⟩
  · norm_num [recommend_items, stZ, simZ, dZ, recLoop, argsort, argRel,
      singleScores, knownItems, List.range_succ, List.insertionSort, List.orderedInsert]
  · norm_num [batch_recommend_items, get_recommendations_from_predictions, selectRow,
      zero_known_item_scores, knownItems, projScores, bRel, stZ, simZ, dZ,
      List.range_succ, List.insertionSort, List.orderedInsert]
  · norm_num [range_recommend_items, get_recommendations_from_predictions, selectRow,
      zero_known_item_scores, knownItems, projScores, bRel, stZ, simZ, dZ,
      List.range_succ, List.insertionSort, List.orderedInsert]

/-- C5, amended: with conformable shapes, `max_items ≥ 1`, *every returned
score strictly positive*, and *no two unknown items with equal raw scores*,
the single-user list equals the entry for `u` of `batch_recommend_items` and
the entry at position `u - a` of `range_recommend_items(a, b)` for any range
`a ≤ u < b ≤ num_users`. `np.argsort` does not specify tie order, so `ord`
here ranges over *every* list `r.argsort()[::-1]` may produce — any
permutation of the item indices with non-increasing scores — and
`recLoop known r max_items ord []` is precisely the list `recommend_items`
then returns (its lines 142-151). Under the no-ties proviso the equality holds
for every such tie resolution, so it is a genuine guarantee of the program.
(Without the positivity proviso the single-user list may contain
zero/negative-score items that the batch path drops, see the counterexample;
without the no-ties proviso, tied positive unknown items may be emitted by the
single-user path in any order while the batch path fixes index-descending
order, so the lists need not be equal.) -/
theorem claim5_amended_consistency :
    ∀ (sim d : Mat) (u us ue m : Nat) (ord : List Nat) (recs : List (Nat × ℚ)),
      d.cols = sim.cols → us ≤ u → u < ue → ue ≤ d.rows → 1 ≤ m →
      List.Perm ord (List.range sim.rows) →
      ord.Pairwise (fun i j => singleScores sim d u j ≤ singleScores sim d u i) →
      (∀ i ∈ ord, ∀ j ∈ ord, i ∉ knownItems d u → j ∉ knownItems d u →
        i ≠ j → singleScores sim d u i ≠ singleScores sim d u j) →
      recs = recLoop (knownItems d u) (singleScores sim d u) m ord [] →
      (∀ p ∈ recs, 0 < p.2) →
      (∃ bl, batch_recommend_items { similarity_matrix := some sim } d m =
          Except.ok bl ∧ bl[u]? = some recs) ∧
      (∃ rl, range_recommend_items { similarity_matrix := some sim } d us ue m =
          Except.ok rl ∧ rl[u - us]? = some recs) := by
  intro sim d u us ue m ord recs hdim hus hue hrows hm hperm hsorted hdist hrecs hpos
  constructor
  · refine ⟨_, rfl, ?_⟩
    have h := grfp_getElem (fun ux => projScores sim d ux) sim.rows d 0 d.rows m u
      (Nat.zero_le u) (by omega)
    rw [Nat.sub_zero] at h
    rw [h]
    show some (selectRow (zero_known_item_scores d u (projScores sim d u))
      sim.rows m) = some recs
    rw [selectRow_eq_recs sim d u m ord recs hdim hm hperm hsorted hdist hrecs hpos]
  · refine ⟨_, rfl, ?_⟩
    have h := grfp_getElem (fun ux => projScores sim d (us + ux)) sim.rows d us ue m u
      hus hue
    rw [h]
    show some (selectRow (zero_known_item_scores d u
      (projScores sim d (us + (u - us)))) sim.rows m) = some recs
    rw [Nat.add_sub_cancel' hus,
      selectRow_eq_recs sim d u m ord recs hdim hm hperm hsorted hdist hrecs hpos]

/-- Witness for C5 at a concrete fitted instance with all-positive, pairwise
distinct scores and the concrete candidate order `[1, 0]`. -/
theorem claim5_witness :
    (∃ bl, batch_recommend_items { similarity_matrix := some simW } dZ 1 =
        Except.ok bl ∧ bl[0]? = some [(1, 1)]) ∧
    (∃ rl, range_recommend_items { similarity_matrix := some simW } dZ 0 1 1 =
        Except.ok rl ∧ rl[0 - 0]? = some [(1, 1)]) := by
  refine claim5_amended_consistency simW dZ 0 0 1 1 [1, 0] [(1, 1)] rfl (le_refl 0)
    (by omega) (by norm_num [dZ]) (le_refl 1) ?hperm ?hsorted ?hdist ?hrecs ?hpos
  case hperm =>
    rw [show List.range simW.rows = [0, 1] from rfl]
    exact List.Perm.swap 0 1 []
  case hsorted =>
    norm_num [List.pairwise_cons, singleScores, simW, dZ, List.range_succ]
  case hdist =>
    intro i hi j hj hik hjk hij
    simp only [List.mem_cons, List.mem_singleton, List.not_mem_nil, or_false] at hi hj
    rcases hi with rfl | rfl <;> rcases hj with rfl | rfl
    · exact absurd rfl hij
    · norm_num [singleScores, simW, dZ, List.range_succ]
    · norm_num [singleScores, simW, dZ, List.range_succ]
    · exact absurd rfl hij
  case hrecs =>
    norm_num [recLoop, singleScores, simW, dZ, knownItems, List.range_succ]
  case hpos =>
    intro p hp
    simp only [List.mem_singleton] at hp
    subst hp
    norm_num

end Mrec
